import Mathlib

/-!
# Verification of the file-name rendering engine (`src/output/file_name.rs`)

This file shallowly embeds the name-rendering engine of the repository:
the style resolver (`FileName::style`, `FileName::kind_style`), the
name renderer (`FileName::paint`, `FileName::add_parent_bits`,
`FileName::coloured_file_name`, `FileName::classify_char`), the icon
classification chain, and the extension-colour composition
(`NoFileColours`, `impl FileColours for (A, B)`), and proves the spec's
claims about them.

Styles are modelled as an inductive type with one constructor per named
colour slot plus an `ext`-indexed family standing for styles produced by
extension colour maps.  A colour scheme is a record of `Style` values,
mirroring the `Colours` trait (merged with its `FiletypeColours`
super-trait, whose implementation lives outside the shown sources).
-/

namespace Keep

/-- A display attribute.  One constructor per semantic colour slot, plus
`Style.ext n` for styles coming from user extension colour maps, and
`Style.default` for the unstyled spaces around the link arrow
(`Style::default()` in the source). -/
inductive Style where
  | default
  | directory
  | executableFile
  | symlink
  | pipe
  | blockDevice
  | charDevice
  | socket
  | special
  | normal
  | brokenSymlink
  | brokenFilename
  | symlinkPath
  | normalArrow
  | controlChar
  | brokenControlChar
  | ext (n : Nat)
deriving DecidableEq, Repr

/-- The set of colours needed to paint a file name: the `Colours` trait of
the source merged with its `FiletypeColours` super-trait (the latter is
declared outside the shown sources; its slots are the ones `kind_style`
reads). -/
structure Colours where
  directory : Style
  executable_file : Style
  symlink : Style
  pipe : Style
  block_device : Style
  char_device : Style
  socket : Style
  special : Style
  normal : Style
  broken_symlink : Style
  broken_filename : Style
  symlink_path : Style
  normal_arrow : Style
  control_char : Style
  broken_control_char : Style
deriving DecidableEq, Repr

/-- The canonical colour scheme: every slot gets its own distinct style. -/
def defaultColours : Colours :=
  { directory := Style.directory
    executable_file := Style.executableFile
    symlink := Style.symlink
    pipe := Style.pipe
    block_device := Style.blockDevice
    char_device := Style.charDevice
    socket := Style.socket
    special := Style.special
    normal := Style.normal
    broken_symlink := Style.brokenSymlink
    broken_filename := Style.brokenFilename
    symlink_path := Style.symlinkPath
    normal_arrow := Style.normalArrow
    control_char := Style.controlChar
    broken_control_char := Style.brokenControlChar }

/-- Modelled from the spec: a filesystem path (the `std::path` collaborator,
not part of this repository's shown sources).  `absolute` records whether
the path starts with the root component; `parts` are the remaining named
components in order.  `/home/user` is `⟨true, [home, user]⟩`, `/` is
`⟨true, []⟩`, the empty path is `⟨false, []⟩`. -/
structure FsPath where
  absolute : Bool
  parts : List String
deriving DecidableEq, Repr

/-- `Path::parent`: drop the last named component; the root path and the
empty path have no parent. -/
def FsPath.parent (p : FsPath) : Option FsPath :=
  match p.parts with
  | [] => none
  | _ :: _ => some ⟨p.absolute, p.parts.dropLast⟩

/-- `Path::components().count()`: the root component counts as one. -/
def FsPath.componentCount (p : FsPath) : Nat :=
  (if p.absolute then 1 else 0) + p.parts.length

/-- `Path::has_root`. -/
def FsPath.hasRoot (p : FsPath) : Bool :=
  p.absolute

/-- `Path::display` / `to_string_lossy`: the textual form of the path. -/
def FsPath.display (p : FsPath) : String :=
  (if p.absolute then "/" else "") ++ String.intercalate "/" p.parts

/-- Modelled from the spec: an `Entry` (the `fs::File` struct of the
metadata collaborator, declared outside the shown sources).  It carries the
displayable name, the path, whether the entry has a parent-directory
back-reference, and the kind predicates the renderer queries. -/
structure File where
  name : String
  path : FsPath
  parent_dir : Option Unit
  is_directory : Bool
  is_executable_file : Bool
  is_link : Bool
  is_pipe : Bool
  is_block_device : Bool
  is_char_device : Bool
  is_socket : Bool
  is_file : Bool
deriving DecidableEq, Repr

/-- Modelled from the spec: the tri-state `fs::FileTarget` outcome of
resolving a symbolic link: resolved entry, broken path, or error. -/
inductive FileTarget where
  | ok (target : File)
  | broken (path : FsPath)
  | err
deriving DecidableEq, Repr

/-- Modelled from the spec: `FileTarget::is_broken`, true exactly on the
`Broken` variant. -/
def FileTarget.is_broken : FileTarget → Bool
  | FileTarget.broken _ => true
  | _ => false

/-- How to handle displaying links (`LinkStyle` in the source). -/
inductive LinkStyle where
  | JustFilenames
  | FullLinkPaths
deriving DecidableEq, Repr

/-- Whether to append file class characters to the file names
(`Classify` in the source). -/
inductive Classify where
  | JustFilenames
  | AddFileIndicators
deriving DecidableEq, Repr

/-- The `FileColours` trait: a lookup from a file to an optional style.
An extension colour source is just its `colour_file` method. -/
def FileColours : Type := File → Option Style

/-- `NoFileColours`: the no-op extension colour source. -/
def noFileColours : FileColours := fun _ => none

/-- `impl FileColours for (A, B)`: try the first colouriser, then fall
back to the second (`or_else` in the source). -/
def pairColours (a b : FileColours) : FileColours :=
  fun file => Option.orElse (a file) (fun _ => b file)

/-- A styled text fragment: one `ANSIString` of the output. -/
structure Fragment where
  text : String
  style : Style
deriving DecidableEq, Repr

/-- Modelled from the spec: the control-character escaping collaborator
(`output::escape`, declared outside the shown sources).  It classifies
each character as printable or control: an all-printable string becomes a
single fragment in the target style, otherwise each control character
becomes its own fragment in the control style. -/
def escape (text : String) (good bad : Style) : List Fragment :=
  if text.data.all (fun c => 32 ≤ c.toNat) then
    [⟨text, good⟩]
  else
    text.data.map (fun c =>
      if 32 ≤ c.toNat then ⟨String.mk [c], good⟩ else ⟨String.mk [c], bad⟩)

/-- The `FileName` value: everything needed to display one file's name. -/
structure FileName where
  file : File
  colours : Colours
  target : Option FileTarget
  link_style : LinkStyle
  classify : Classify
  exts : FileColours

/-- `FileName::with_link_paths`: switch on the display of link targets. -/
def with_link_paths (fn : FileName) : FileName :=
  { fn with link_style := LinkStyle.FullLinkPaths }

/-- Whether the file name's known link target is the `Broken` variant. -/
def target_is_broken (fn : FileName) : Bool :=
  match fn.target with
  | some t => t.is_broken
  | none => false

/-- `FileName::kind_style`: the structural kind match, evaluated in the
source's fixed order, `none` when the entry is a plain regular file. -/
def kind_style (fn : FileName) : Option Style :=
  if fn.file.is_directory then some fn.colours.directory
  else if fn.file.is_executable_file then some fn.colours.executable_file
  else if fn.file.is_link then some fn.colours.symlink
  else if fn.file.is_pipe then some fn.colours.pipe
  else if fn.file.is_block_device then some fn.colours.block_device
  else if fn.file.is_char_device then some fn.colours.char_device
  else if fn.file.is_socket then some fn.colours.socket
  else if !fn.file.is_file then some fn.colours.special
  else none

/-- `FileName::style`: the broken-link override in names-only mode, then
the structural kinds, then the extension colour map, then `normal`. -/
def style (fn : FileName) : Style :=
  if fn.link_style = LinkStyle.JustFilenames ∧ target_is_broken fn then
    fn.colours.broken_symlink
  else
    match kind_style fn with
    | some s => s
    | none =>
      match fn.exts fn.file with
      | some s => s
      | none => fn.colours.normal

/-- Translation of Rust's `str::split(".")` : split at every dot,
keeping empty segments; the result is never empty. -/
def splitDotAux : List Char → List Char → List String
  | [], acc => [String.mk acc]
  | c :: cs, acc =>
    if c = '.' then String.mk acc :: splitDotAux cs []
    else splitDotAux cs (acc ++ [c])

/-- Split a name on `'.'`, as `name.split(".").collect::<Vec<_>>()` does. -/
def splitOnDot (s : String) : List String :=
  splitDotAux s.data []

/-- The icon chosen inside `FileName::coloured_file_name`: the directory
glyph for directories, otherwise the first-match chain of extension tests
on the last dot-separated segment of the name, with a catch-all default. -/
def icon_of (fn : FileName) : String :=
  let words := splitOnDot fn.file.name
  let format := words.getLast?
  if fn.file.is_directory then "\uf115  "
  else if ([some "zip", some "tar", some "gz", some "rar"]).contains format then "\uf410  "
  else if ([some "yml", some "yaml"]).contains format then "\uf481  "
  else if ([some "xml", some "xul"]).contains format then "\ue619  "
  else if ([some "xls", some "xlsx", some "csv", some "gsheet"]).contains format then "\uf17a  "
  else if ([some "ini", some "exe", some "bat"]).contains format then "\uf481  "
  else if ([some "webm", some "ogv", some "mp4", some "mkv", some "avi"]).contains format then "\uf03d  "
  else if ([some "styl", some "stylus", some "tex"]).contains format then "\ue600  "
  else if ([some "zshrc", some "zsh-theme", some "zsh", some "sh", some "fish", some "bashrc", some "bash_profile", some "bash_history", some "bash"]).contains format then "\uf489  "
  else if ([some "rb", some "ru", some "rspec", some "rspec_status", some "rspec_parallel", some "Rakefile", some "Procfile", some "lock", some "gemspec", some "Gemfile", some "Guardfile"]).contains format then "\ue21e  "
  else if ([some "bmp", some "gif", some "ico", some "png", some "jpg", some "jpeg", some "svg"]).contains format then "\uf1c5  "
  else if ([some "eot", some "otf", some "ttf", some "woff", some "woff2"]).contains format then "\uf031  "
  else if ([some "md", some "txt", some "rst", some "rdoc"]).contains format then "\uf48a  "
  else if ([some "erb", some "slim"]).contains format then "\ue73b  "
  else if ([some "RData", some "rds", some "r"]).contains format then "\uf25d  "
  else if ([some "py", some "pyc"]).contains format then "\ue606  "
  else if ([some "ppt", some "pptx", some "gslides"]).contains format then "\uf1c4  "
  else if ([some "git", some "gitignore", some "gitconfig", some "gitignore_global"]).contains format then "\uf1d3  "
  else if ([some "apk", some "gradle"]).contains format then "\ue70e  "
  else if ([some "ds_store", some "localized"]).contains format then "\uf179  "
  else if ([some "mp3", some "ogg"]).contains format then "\uf001  "
  else if ([some "doc", some "docx", some "gdoc"]).contains format then "\uf1c2  "
  else if ([some "tsx", some "jsx"]).contains format then "\ue7ba  "
  else if ([some "properties", some "json"]).contains format then "\ue60b  "
  else if ([some "jar", some "java"]).contains format then "\ue204  "
  else if ([some "lhs", some "hs"]).contains format then "\ue777  "
  else if ([some "mobi", some "ebook", some "epub"]).contains format then "\ue28b  "
  else if ([some "scss", some "css"]).contains format then "\ue749  "
  else if ([some "editorconfig", some "conf"]).contains format then "\ue615  "
  else if ([some "vim"]).contains format then "\ue62b  "
  else if ([some "twig"]).contains format then "\ue61c  "
  else if ([some "ts"]).contains format then "\ue628  "
  else if ([some "tex"]).contains format then "\ue600  "
  else if ([some "sqlite3"]).contains format then "\ue7c4  "
  else if ([some "scala"]).contains format then "\ue737  "
  else if ([some "sass"]).contains format then "\ue603  "
  else if ([some "rss"]).contains format then "\uf09e  "
  else if ([some "rdb"]).contains format then "\ue76d  "
  else if ([some "psd"]).contains format then "\ue7b8  "
  else if ([some "pl"]).contains format then "\ue769  "
  else if ([some "php"]).contains format then "\ue73d  "
  else if ([some "pdf"]).contains format then "\uf1c1  "
  else if ([some "npmignore"]).contains format then "\ue71e  "
  else if ([some "mustache"]).contains format then "\ue60f  "
  else if ([some "lua"]).contains format then "\ue620  "
  else if ([some "log"]).contains format then "\uf18d  "
  else if ([some "less"]).contains format then "\ue758  "
  else if ([some "js"]).contains format then "\ue74e  "
  else if ([some "iml"]).contains format then "\ue7b5  "
  else if ([some "html"]).contains format then "\uf13b  "
  else if ([some "go"]).contains format then "\ue626  "
  else if ([some "gform"]).contains format then "\uf298  "
  else if ([some "erl"]).contains format then "\ue7b1  "
  else if ([some "ai"]).contains format then "\ue7b4  "
  else if ([some "avro"]).contains format then "\ue60b  "
  else if ([some "c"]).contains format then "\ue61e  "
  else if ([some "clj"]).contains format then "\ue768  "
  else if ([some "coffee"]).contains format then "\uf0f4  "
  else if ([some "cpp"]).contains format then "\ue61d  "
  else if ([some "d"]).contains format then "\ue7af  "
  else if ([some "dart"]).contains format then "\ue798  "
  else if ([some "db"]).contains format then "\uf1c0  "
  else if ([some "diff"]).contains format then "\uf440  "
  else if ([some "env", some "config"]).contains format then "\uf462  "
  else "\uf15b  "

/-- `FileName::coloured_file_name`: the icon glued to the name, escaped
with the resolved style and `colours.control_char`. -/
def coloured_file_name (fn : FileName) : List Fragment :=
  escape (icon_of fn ++ fn.file.name) (style fn) fn.colours.control_char

/-- `FileName::classify_char`: the type-indicator character, if any. -/
def classify_char (fn : FileName) : Option String :=
  if fn.file.is_executable_file then some "*"
  else if fn.file.is_directory then some "/"
  else if fn.file.is_pipe then some "|"
  else if fn.file.is_link then some "@"
  else if fn.file.is_socket then some "="
  else none

/-- `FileName::add_parent_bits`: the escaped parent path followed by a
`/` separator, a bare `/` when the parent is exactly the root, and
nothing when the parent has no components. -/
def add_parent_bits (fn : FileName) (parent : FsPath) : List Fragment :=
  let coconut := parent.componentCount
  if coconut = 1 ∧ parent.hasRoot then
    [⟨"/", fn.colours.symlink_path⟩]
  else if 1 ≤ coconut then
    escape parent.display fn.colours.symlink_path fn.colours.control_char
      ++ [⟨"/", fn.colours.symlink_path⟩]
  else []

/-- The first block of `FileName::paint` (lines 122-126): the parent-path
fragments, present only when the entry has no parent-directory
back-reference and its path has a parent. -/
def parentBits (fn : FileName) : List Fragment :=
  if fn.file.parent_dir = none then
    match fn.file.path.parent with
    | some parent => add_parent_bits fn parent
    | none => []
  else []

/-- The second block of `FileName::paint` (lines 128-138): the icon+name
fragments, present only when the name is non-empty. -/
def nameBits (fn : FileName) : List Fragment :=
  if fn.file.name = "" then [] else coloured_file_name fn

/-- The third block of `FileName::paint` (lines 140-183): the link-target
display when full link paths are shown and a target is known, otherwise
the optional classification character. -/
def suffixBits (fn : FileName) : List Fragment :=
  match fn.link_style, fn.target with
  | LinkStyle.FullLinkPaths, some t =>
    match t with
    | FileTarget.ok tfile =>
      [⟨" ", Style.default⟩, ⟨"->", fn.colours.normal_arrow⟩, ⟨" ", Style.default⟩]
        ++ (match tfile.path.parent with
            | some parent => add_parent_bits fn parent
            | none => [])
        ++ (if tfile.name = "" then []
            else coloured_file_name
              { file := tfile
                colours := fn.colours
                target := none
                link_style := LinkStyle.FullLinkPaths
                classify := Classify.JustFilenames
                exts := fn.exts })
    | FileTarget.broken broken_path =>
      [⟨" ", Style.default⟩, ⟨"->", fn.colours.broken_symlink⟩, ⟨" ", Style.default⟩]
        ++ escape broken_path.display fn.colours.broken_filename fn.colours.broken_control_char
    | FileTarget.err => []
  | _, _ =>
    match fn.classify with
    | Classify.AddFileIndicators =>
      match classify_char fn with
      | some c => [⟨c, Style.default⟩]
      | none => []
    | Classify.JustFilenames => []

/-- `FileName::paint`: the full fragment sequence, assembled in the
source's push order. -/
def paint (fn : FileName) : List Fragment :=
  parentBits fn ++ nameBits fn ++ suffixBits fn

/-- Spec-side view of the icon classification: the ordered rule table,
each rule a set of extension keys paired with its glyph, transcribed in
the source's evaluation order. -/
def iconRules : List (List String × String) := [
  (["zip", "tar", "gz", "rar"], "\uf410  "),
  (["yml", "yaml"], "\uf481  "),
  (["xml", "xul"], "\ue619  "),
  (["xls", "xlsx", "csv", "gsheet"], "\uf17a  "),
  (["ini", "exe", "bat"], "\uf481  "),
  (["webm", "ogv", "mp4", "mkv", "avi"], "\uf03d  "),
  (["styl", "stylus", "tex"], "\ue600  "),
  (["zshrc", "zsh-theme", "zsh", "sh", "fish", "bashrc", "bash_profile", "bash_history", "bash"], "\uf489  "),
  (["rb", "ru", "rspec", "rspec_status", "rspec_parallel", "Rakefile", "Procfile", "lock", "gemspec", "Gemfile", "Guardfile"], "\ue21e  "),
  (["bmp", "gif", "ico", "png", "jpg", "jpeg", "svg"], "\uf1c5  "),
  (["eot", "otf", "ttf", "woff", "woff2"], "\uf031  "),
  (["md", "txt", "rst", "rdoc"], "\uf48a  "),
  (["erb", "slim"], "\ue73b  "),
  (["RData", "rds", "r"], "\uf25d  "),
  (["py", "pyc"], "\ue606  "),
  (["ppt", "pptx", "gslides"], "\uf1c4  "),
  (["git", "gitignore", "gitconfig", "gitignore_global"], "\uf1d3  "),
  (["apk", "gradle"], "\ue70e  "),
  (["ds_store", "localized"], "\uf179  "),
  (["mp3", "ogg"], "\uf001  "),
  (["doc", "docx", "gdoc"], "\uf1c2  "),
  (["tsx", "jsx"], "\ue7ba  "),
  (["properties", "json"], "\ue60b  "),
  (["jar", "java"], "\ue204  "),
  (["lhs", "hs"], "\ue777  "),
  (["mobi", "ebook", "epub"], "\ue28b  "),
  (["scss", "css"], "\ue749  "),
  (["editorconfig", "conf"], "\ue615  "),
  (["vim"], "\ue62b  "),
  (["twig"], "\ue61c  "),
  (["ts"], "\ue628  "),
  (["tex"], "\ue600  "),
  (["sqlite3"], "\ue7c4  "),
  (["scala"], "\ue737  "),
  (["sass"], "\ue603  "),
  (["rss"], "\uf09e  "),
  (["rdb"], "\ue76d  "),
  (["psd"], "\ue7b8  "),
  (["pl"], "\ue769  "),
  (["php"], "\ue73d  "),
  (["pdf"], "\uf1c1  "),
  (["npmignore"], "\ue71e  "),
  (["mustache"], "\ue60f  "),
  (["lua"], "\ue620  "),
  (["log"], "\uf18d  "),
  (["less"], "\ue758  "),
  (["js"], "\ue74e  "),
  (["iml"], "\ue7b5  "),
  (["html"], "\uf13b  "),
  (["go"], "\ue626  "),
  (["gform"], "\uf298  "),
  (["erl"], "\ue7b1  "),
  (["ai"], "\ue7b4  "),
  (["avro"], "\ue60b  "),
  (["c"], "\ue61e  "),
  (["clj"], "\ue768  "),
  (["coffee"], "\uf0f4  "),
  (["cpp"], "\ue61d  "),
  (["d"], "\ue7af  "),
  (["dart"], "\ue798  "),
  (["db"], "\uf1c0  "),
  (["diff"], "\uf440  "),
  (["env", "config"], "\uf462  ")
]

/-- Spec-side ordered-rule lookup: the first rule whose key set contains
the extracted key wins; the default glyph when no rule matches (or when
there is no key). -/
def specIconLookup : List (List String × String) → Option String → String
  | [], _ => "\uf15b  "
  | (keys, glyph) :: rest, format =>
    if (match format with
        | some k => keys.contains k
        | none => false) then glyph
    else specIconLookup rest format

/-- All extension keys appearing in the icon rule table, in order. -/
def iconTableKeys : List String := (iconRules.map Prod.fst).flatten

/-- ASCII lower-casing of one character. -/
def lowerChar (c : Char) : Char :=
  if 65 ≤ c.toNat ∧ c.toNat ≤ 90 then Char.ofNat (c.toNat + 32) else c

/-- ASCII lower-casing of a string: the formal reading of "lower-cased". -/
def lowerStr (s : String) : String := String.mk (s.data.map lowerChar)

/-- The link-target display block of `FileName::paint` on its own: arrow
plus resolved target, arrow plus broken path, or nothing on error. -/
def linkTargetBits (fn : FileName) : FileTarget → List Fragment
  | FileTarget.ok tfile =>
    [⟨" ", Style.default⟩, ⟨"->", fn.colours.normal_arrow⟩, ⟨" ", Style.default⟩]
      ++ (match tfile.path.parent with
          | some parent => add_parent_bits fn parent
          | none => [])
      ++ (if tfile.name = "" then []
          else coloured_file_name
            { file := tfile
              colours := fn.colours
              target := none
              link_style := LinkStyle.FullLinkPaths
              classify := Classify.JustFilenames
              exts := fn.exts })
  | FileTarget.broken broken_path =>
    [⟨" ", Style.default⟩, ⟨"->", fn.colours.broken_symlink⟩, ⟨" ", Style.default⟩]
      ++ escape broken_path.display fn.colours.broken_filename fn.colours.broken_control_char
  | FileTarget.err => []

/-- The classification-suffix block of `FileName::paint` on its own: one
indicator character when classification is on and the kind has one. -/
def classifyBits (fn : FileName) : List Fragment :=
  match fn.classify with
  | Classify.AddFileIndicators =>
    match classify_char fn with
    | some c => [⟨c, Style.default⟩]
    | none => []
  | Classify.JustFilenames => []

/-- The fresh render context the spec prescribes for a link's target:
the target file itself, no further target, link display forced off, and
classification forced off. -/
def freshTargetName (fn : FileName) (tfile : File) : FileName :=
  { file := tfile
    colours := fn.colours
    target := none
    link_style := LinkStyle.JustFilenames
    classify := Classify.JustFilenames
    exts := fn.exts }

/-- A directory entry whose extension appears in the extension colour
map: `archive.zip` as a directory name. -/
def dirZipFile : File :=
  ⟨"archive.zip", ⟨false, ["archive.zip"]⟩, some (),
    true, false, false, false, false, false, false, false⟩

/-- An extension colour map that colours every file. -/
def everyExtColour : FileColours := fun _ => some (Style.ext 7)

/-- The directory entry of `dirZipFile` under the canonical colours. -/
def dirZipName : FileName :=
  ⟨dirZipFile, defaultColours, none, LinkStyle.JustFilenames,
    Classify.JustFilenames, everyExtColour⟩

/-- A broken symbolic link entry named `bad`. -/
def badLinkFile : File :=
  ⟨"bad", ⟨false, ["bad"]⟩, some (),
    false, false, true, false, false, false, false, false⟩

/-- `bad` in names-only mode with a broken target. -/
def badLinkNamesOnly : FileName :=
  ⟨badLinkFile, defaultColours, some (FileTarget.broken ⟨true, ["tmp", "missing"]⟩),
    LinkStyle.JustFilenames, Classify.JustFilenames, noFileColours⟩

/-- `bad` with full link paths shown and a broken target `/tmp/missing`. -/
def badLinkFullPaths : FileName :=
  ⟨badLinkFile, defaultColours, some (FileTarget.broken ⟨true, ["tmp", "missing"]⟩),
    LinkStyle.FullLinkPaths, Classify.JustFilenames, noFileColours⟩

/-- A plain regular file named `notes.md`. -/
def notesFile : File :=
  ⟨"notes.md", ⟨false, ["notes.md"]⟩, some (),
    false, false, false, false, false, false, false, true⟩

/-- `notes.md` as a plain render. -/
def notesName : FileName :=
  ⟨notesFile, defaultColours, none, LinkStyle.JustFilenames,
    Classify.JustFilenames, noFileColours⟩

/-- A link entry whose target resolved with an error. -/
def errLinkName : FileName :=
  ⟨badLinkFile, defaultColours, some FileTarget.err,
    LinkStyle.FullLinkPaths, Classify.AddFileIndicators, noFileColours⟩

/-- A link named `ln` resolving to the file `/home/user/notes.md`. -/
def okTargetFile : File :=
  ⟨"notes.md", ⟨true, ["home", "user", "notes.md"]⟩, some (),
    false, false, false, false, false, false, false, true⟩

/-- The link entry `ln` showing its resolved target. -/
def okLinkName : FileName :=
  ⟨⟨"ln", ⟨false, ["ln"]⟩, some (),
      false, false, true, false, false, false, false, false⟩,
    defaultColours, some (FileTarget.ok okTargetFile),
    LinkStyle.FullLinkPaths, Classify.AddFileIndicators, noFileColours⟩

/-- The empty-name root-argument entry at `/home/user`. -/
def emptyNameFile : File :=
  ⟨"", ⟨true, ["home", "user"]⟩, none,
    false, false, false, false, false, false, false, true⟩

/-- The empty-name entry as a plain render. -/
def emptyNameName : FileName :=
  ⟨emptyNameFile, defaultColours, none, LinkStyle.JustFilenames,
    Classify.JustFilenames, noFileColours⟩

/-- The entry `/home`, whose path's parent is exactly the root. -/
def homeFile : File :=
  ⟨"home", ⟨true, ["home"]⟩, none,
    false, false, false, false, false, false, false, true⟩

/-- The `/home` entry as a plain render. -/
def homeName : FileName :=
  ⟨homeFile, defaultColours, none, LinkStyle.JustFilenames,
    Classify.JustFilenames, noFileColours⟩

/-- A root-argument entry with the single-component relative path `foo`. -/
def relFooFile : File :=
  ⟨"foo", ⟨false, ["foo"]⟩, none,
    false, false, false, false, false, false, false, true⟩

/-- The `foo` entry as a plain render. -/
def relFooName : FileName :=
  ⟨relFooFile, defaultColours, none, LinkStyle.JustFilenames,
    Classify.AddFileIndicators, noFileColours⟩


/-- Helper: with no recorded target, `coloured_file_name` does not depend
on the link style or the classify flag. -/
theorem coloured_file_name_congr (f : File) (c : Colours) (e : FileColours)
    (ls₁ ls₂ : LinkStyle) (cl₁ cl₂ : Classify) :
    coloured_file_name ⟨f, c, none, ls₁, cl₁, e⟩
      = coloured_file_name ⟨f, c, none, ls₂, cl₂, e⟩ := by
  simp [coloured_file_name, style, target_is_broken, kind_style, icon_of]

/-- Claim C1: when the broken-link override does not fire, the resolved style
follows the fixed precedence chain — directory, executable regular file,
symbolic link, named pipe, block device, char device, socket, then the
"not a plain file" catch-all — and only when no structural kind matches
is the extension map queried, and only when that returns nothing is
`colours.normal` used; in particular a directory resolves to
`colours.directory` whatever the extension map contains. -/
theorem style_precedence_chain (fn : FileName)
    (h : ¬(fn.link_style = LinkStyle.JustFilenames ∧ target_is_broken fn = true)) :
    style fn =
      (if fn.file.is_directory then fn.colours.directory
       else if fn.file.is_executable_file then fn.colours.executable_file
       else if fn.file.is_link then fn.colours.symlink
       else if fn.file.is_pipe then fn.colours.pipe
       else if fn.file.is_block_device then fn.colours.block_device
       else if fn.file.is_char_device then fn.colours.char_device
       else if fn.file.is_socket then fn.colours.socket
       else if !fn.file.is_file then fn.colours.special
       else
         match fn.exts fn.file with
         | some s => s
         | none => fn.colours.normal)
      ∧ (fn.file.is_directory = true → style fn = fn.colours.directory) := by
  have hchain : style fn =
      (if fn.file.is_directory then fn.colours.directory
       else if fn.file.is_executable_file then fn.colours.executable_file
       else if fn.file.is_link then fn.colours.symlink
       else if fn.file.is_pipe then fn.colours.pipe
       else if fn.file.is_block_device then fn.colours.block_device
       else if fn.file.is_char_device then fn.colours.char_device
       else if fn.file.is_socket then fn.colours.socket
       else if !fn.file.is_file then fn.colours.special
       else
         match fn.exts fn.file with
         | some s => s
         | none => fn.colours.normal) := by
    unfold style
    rw [if_neg h]
    unfold kind_style
    split_ifs <;> rfl
  refine ⟨hchain, fun hd => ?_⟩
  rw [hchain, if_pos hd]

/-- Witness for C1: a concrete directory named `archive.zip` under an
extension map that colours everything still gets the directory colour. -/
theorem style_precedence_chain_witness :
    style dirZipName = defaultColours.directory :=
  (style_precedence_chain dirZipName (by decide)).2 rfl

/-- Claim C2: with colour slots distinguishable from `brokenSymlink`, the style
resolver returns `colours.brokenSymlink` exactly when the link-display
mode is names-only, the entry is a link, and the resolved target is
broken; and when full link paths are shown the override never applies and
the entry is styled by the normal precedence chain. -/
theorem style_broken_override (fn : FileName)
    (hdir : fn.colours.directory ≠ fn.colours.broken_symlink)
    (hexe : fn.colours.executable_file ≠ fn.colours.broken_symlink)
    (hsym : fn.colours.symlink ≠ fn.colours.broken_symlink)
    (hpip : fn.colours.pipe ≠ fn.colours.broken_symlink)
    (hblk : fn.colours.block_device ≠ fn.colours.broken_symlink)
    (hchr : fn.colours.char_device ≠ fn.colours.broken_symlink)
    (hsoc : fn.colours.socket ≠ fn.colours.broken_symlink)
    (hspe : fn.colours.special ≠ fn.colours.broken_symlink)
    (hnor : fn.colours.normal ≠ fn.colours.broken_symlink)
    (hext : ∀ s, fn.exts fn.file = some s → s ≠ fn.colours.broken_symlink) :
    (style fn = fn.colours.broken_symlink
        ↔ fn.link_style = LinkStyle.JustFilenames ∧ target_is_broken fn = true)
      ∧ (fn.link_style = LinkStyle.FullLinkPaths →
          style fn =
            (match kind_style fn with
             | some s => s
             | none =>
               match fn.exts fn.file with
               | some s => s
               | none => fn.colours.normal)) := by
  by_cases hc : fn.link_style = LinkStyle.JustFilenames ∧ target_is_broken fn = true
  · have hb : style fn = fn.colours.broken_symlink := by
      unfold style
      rw [if_pos hc]
    refine ⟨iff_of_true hb hc, fun hful => ?_⟩
    exact absurd (hc.1.symm.trans hful) (by decide)
  · have hchain : style fn =
        (match kind_style fn with
         | some s => s
         | none =>
           match fn.exts fn.file with
           | some s => s
           | none => fn.colours.normal) := by
      unfold style
      rw [if_neg hc]
    have hne : style fn ≠ fn.colours.broken_symlink := by
      rw [hchain]
      unfold kind_style
      split_ifs
      · exact hdir
      · exact hexe
      · exact hsym
      · exact hpip
      · exact hblk
      · exact hchr
      · exact hsoc
      · exact hspe
      · cases hx : fn.exts fn.file with
        | some s => exact hext s hx
        | none => exact hnor
    exact ⟨iff_of_false hne hc, fun _ => hchain⟩

/-- Witness for C2: the concrete broken link in names-only mode gets the
broken-symlink colour under the canonical distinct colour scheme. -/
theorem style_broken_override_witness :
    style badLinkNamesOnly = defaultColours.broken_symlink :=
  ((style_broken_override badLinkNamesOnly (by decide) (by decide) (by decide)
      (by decide) (by decide) (by decide) (by decide) (by decide) (by decide)
      (fun _ hs => Option.noConfusion hs)).1).mpr ⟨rfl, rfl⟩

/-- Claim C5: for every file and every pair of extension colour sources, a hit
in the first source wins regardless of the second, a miss defers to the
second, and the no-op source always returns nothing. -/
theorem pair_colours_composition (a b : FileColours) (file : File) :
    (∀ x, a file = some x → pairColours a b file = some x)
      ∧ (a file = none → pairColours a b file = b file)
      ∧ noFileColours file = none := by
  refine ⟨fun x hx => ?_, fun hx => ?_, rfl⟩
  · show Option.orElse (a file) (fun _ => b file) = some x
    rw [hx]
    rfl
  · show Option.orElse (a file) (fun _ => b file) = b file
    rw [hx]
    rfl

/-- Witness for C5 at concrete colour sources and a concrete file. -/
theorem pair_colours_composition_witness :
    pairColours everyExtColour noFileColours notesFile = some (Style.ext 7) :=
  (pair_colours_composition everyExtColour noFileColours notesFile).1 (Style.ext 7) rfl


/-- Helper: `BEq` on `Option String` compares the wrapped strings. -/
theorem option_some_beq (a b : String) : (some a == some b) = (a == b) := rfl

/-- Claim C6: the icon for an entry: a directory always gets the directory
glyph regardless of its name; otherwise the name is split on dots, the
last segment is the case-sensitive lookup key, the ordered rule table is
scanned and the first rule containing the key wins, with the default
glyph when no rule matches. -/
theorem icon_algorithm (fn : FileName) :
    (fn.file.is_directory = true → icon_of fn = "\uf115  ")
      ∧ (fn.file.is_directory = false →
          icon_of fn = specIconLookup iconRules (splitOnDot fn.file.name).getLast?) := by
  constructor
  · intro h
    simp [icon_of, h]
  · intro h
    simp only [icon_of, h]
    generalize (splitOnDot fn.file.name).getLast? = o
    cases o with
    | none => rfl
    | some k =>
      simp [specIconLookup, iconRules, option_some_beq]

/-- Witness for C6: a directory named `x.RData` keeps the directory
glyph; a regular file named `x.RData` gets the R glyph through the rule
table, while the lower-cased `x.rdata` falls to the default glyph. -/
theorem icon_algorithm_witness :
    icon_of dirZipName = "\uf115  "
      ∧ icon_of notesName = specIconLookup iconRules (splitOnDot "notes.md").getLast?
      ∧ specIconLookup iconRules (some "RData") = "\uf25d  "
      ∧ specIconLookup iconRules (some "rdata") = "\uf15b  " :=
  ⟨(icon_algorithm dirZipName).1 rfl, (icon_algorithm notesName).2 rfl,
    by decide, by decide⟩

/-- Claim C7 counterexample: `RData` is a key of the static icon table that is
not lower-cased. -/
theorem icon_keys_not_all_lowercase :
    "RData" ∈ iconTableKeys ∧ lowerStr "RData" ≠ "RData" := by decide

/-- Claim C7 amended: the keys of the static icon table are lower-cased except
exactly `Rakefile`, `Procfile`, `Gemfile`, `Guardfile` and `RData`. -/
theorem icon_keys_lowercase_except :
    iconTableKeys.filter (fun k => lowerStr k != k)
      = ["Rakefile", "Procfile", "Gemfile", "Guardfile", "RData"] := by decide


/-- Helper: `add_parent_bits` depends only on the colour scheme of the
file name it is called on. -/
theorem add_parent_bits_colours (fn1 fn2 : FileName) (h : fn1.colours = fn2.colours)
    (p : FsPath) : add_parent_bits fn1 p = add_parent_bits fn2 p := by
  unfold add_parent_bits
  rw [h]

/-- Claim C3: with link targets shown and a resolved target, the output
after the entry's own name fragment is a space, the arrow `->` styled
`colours.normalArrow`, a space, then the target's parent-path prefix and
the target's name fragment rendered in the fresh narrowed context: no
recorded target, link display off, classification off, and the parent
prefix emitted unconditionally as though no parent directory were
recorded. -/
theorem link_target_render (fn : FileName) (tfile : File)
    (hls : fn.link_style = LinkStyle.FullLinkPaths)
    (ht : fn.target = some (FileTarget.ok tfile)) :
    paint fn = parentBits fn ++ nameBits fn
      ++ ([⟨" ", Style.default⟩, ⟨"->", fn.colours.normal_arrow⟩, ⟨" ", Style.default⟩]
        ++ (match tfile.path.parent with
            | some parent => add_parent_bits (freshTargetName fn tfile) parent
            | none => [])
        ++ nameBits (freshTargetName fn tfile)) := by
  have hsub : nameBits (freshTargetName fn tfile)
      = (if tfile.name = "" then []
         else coloured_file_name
           ⟨tfile, fn.colours, none, LinkStyle.FullLinkPaths,
             Classify.JustFilenames, fn.exts⟩) := by
    unfold nameBits freshTargetName
    by_cases hname : tfile.name = ""
    · simp [hname]
    · simp only [hname, if_neg]
      exact coloured_file_name_congr tfile fn.colours fn.exts
        LinkStyle.JustFilenames LinkStyle.FullLinkPaths
        Classify.JustFilenames Classify.JustFilenames
  unfold paint suffixBits
  simp only [hls, ht]
  rw [hsub]
  simp only [add_parent_bits_colours (freshTargetName fn tfile) fn rfl]

/-- Witness for C3: the concrete link `ln` resolving to
`/home/user/notes.md`. -/
theorem link_target_render_witness :
    paint okLinkName = parentBits okLinkName ++ nameBits okLinkName
      ++ ([⟨" ", Style.default⟩, ⟨"->", okLinkName.colours.normal_arrow⟩, ⟨" ", Style.default⟩]
        ++ (match okTargetFile.path.parent with
            | some parent => add_parent_bits (freshTargetName okLinkName okTargetFile) parent
            | none => [])
        ++ nameBits (freshTargetName okLinkName okTargetFile)) :=
  link_target_render okLinkName okTargetFile rfl rfl

/-- Claim C4: a single render is always parent-prefix, then icon+name,
then at most one of link-target display or classification suffix: with
link paths shown and a known target only the link display is appended
(and nothing at all for the error variant, whatever the classify flag
says), and otherwise only the classification suffix is. -/
theorem render_exclusive (fn : FileName) :
    (∀ t, fn.link_style = LinkStyle.FullLinkPaths → fn.target = some t →
        paint fn = parentBits fn ++ nameBits fn ++ linkTargetBits fn t)
      ∧ (fn.link_style = LinkStyle.JustFilenames ∨ fn.target = none →
          paint fn = parentBits fn ++ nameBits fn ++ classifyBits fn)
      ∧ (fn.link_style = LinkStyle.FullLinkPaths → fn.target = some FileTarget.err →
          paint fn = parentBits fn ++ nameBits fn) := by
  refine ⟨fun t hls ht => ?_, fun h => ?_, fun hls ht => ?_⟩
  · unfold paint suffixBits linkTargetBits
    simp only [hls, ht]
  · unfold paint suffixBits classifyBits
    rcases h with h | h
    · simp only [h]
    · cases hls : fn.link_style <;> simp only [h, hls]
  · unfold paint suffixBits
    simp only [hls, ht, List.append_nil]

/-- Witness for C4: the error-target link appends nothing even with
classification on, and the plain `notes.md` render appends only the
classification block. -/
theorem render_exclusive_witness :
    paint errLinkName = parentBits errLinkName ++ nameBits errLinkName
      ∧ paint notesName = parentBits notesName ++ nameBits notesName ++ classifyBits notesName :=
  ⟨(render_exclusive errLinkName).2.2 rfl rfl,
    (render_exclusive notesName).2.1 (Or.inl rfl)⟩

/-- Claim C8: the broken-link scenario: `bad`, a link with target
`Broken(/tmp/missing)` rendered with link targets shown, produces exactly
the icon+name fragment in the entry's resolved style (the symlink colour,
as the normal chain dictates for a link), a space, the arrow styled
`colours.brokenSymlink`, a space, and the broken path styled
`colours.brokenFilename`. -/
theorem broken_link_scenario :
    paint badLinkFullPaths =
      [⟨"\uf15b  bad", defaultColours.symlink⟩,
       ⟨" ", Style.default⟩,
       ⟨"->", defaultColours.broken_symlink⟩,
       ⟨" ", Style.default⟩,
       ⟨"/tmp/missing", defaultColours.broken_filename⟩] := by decide

/-- Claim C9: the empty-name entry at `/home/user` with no parent
back-reference renders exactly the escaped parent prefix `/home` and a
`/` separator, both in `colours.symlinkPath`, with no name fragment; and
an entry whose path's parent is exactly the filesystem root gets a single
`/` fragment as its whole prefix. -/
theorem empty_name_root_scenario :
    paint emptyNameName =
      [⟨"/home", defaultColours.symlink_path⟩, ⟨"/", defaultColours.symlink_path⟩]
      ∧ parentBits homeName = [⟨"/", defaultColours.symlink_path⟩] := by decide

/-- Claim C10: an entry with no parent back-reference whose path's parent
exists but has zero components gets no parent-prefix fragments at all:
the render is exactly the name block followed by the suffix block. -/
theorem no_prefix_for_componentless_parent (fn : FileName) (p : FsPath)
    (h1 : fn.file.parent_dir = none)
    (h2 : fn.file.path.parent = some p)
    (h3 : p.componentCount = 0) :
    parentBits fn = [] ∧ paint fn = nameBits fn ++ suffixBits fn := by
  have hpb : parentBits fn = [] := by
    unfold parentBits
    rw [if_pos h1, h2]
    show add_parent_bits fn p = []
    unfold add_parent_bits
    simp [h3]
  refine ⟨hpb, ?_⟩
  unfold paint
  rw [hpb]
  simp

/-- Witness for C10: the single-component relative path `foo`, whose
syntactic parent is the empty path. -/
theorem no_prefix_for_componentless_parent_witness :
    parentBits relFooName = []
      ∧ paint relFooName = nameBits relFooName ++ suffixBits relFooName :=
  no_prefix_for_componentless_parent relFooName ⟨false, []⟩ rfl rfl rfl

end Keep
